import Mathlib

/-!
Verification of the Medicine Reminder application's core:
the reminder Scheduler (supabase/functions/schedule-reminders/index.ts),
the reminder Dispatcher (supabase/functions/send-reminder/index.ts) and
the record-lookup SQL function `get_active_medications_for_reminders`.

The TypeScript is embedded shallowly: each edge function becomes a pure
Lean function over an explicit state (the `reminder_logs` table contents,
the run's counters and error list), with the nondeterministic environment
(the outcome of the HTTP transport to the dispatcher and of the log
insert) passed in as parameters.  Wall-clock reads (`currentDate`,
`currentTime`, the run timestamp, the dispatcher's `sent_time`) are
likewise parameters.  The state additionally records the trace of
dispatch requests issued (`dispatches`), pure instrumentation that lets
theorems count how many dispatch attempts a run makes.
-/

namespace MedReminder

/-- Model of JS `String.prototype.split(c)` for a one-character
separator, on the character list of the string.  `"".split(c)` is
`[""]`, hence the base case returns `[[]]`. -/
def splitOnChar (c : Char) : List Char → List (List Char)
  | [] => [[]]
  | x :: rest =>
    match splitOnChar c rest with
    | [] => [[]]
    | g :: gs => if x = c then [] :: g :: gs else (x :: g) :: gs

/-- Decimal value of a list of digit characters. -/
def jsDigits (cs : List Char) : Nat :=
  cs.foldl (fun a c => 10 * a + (c.toNat - 48)) 0

/-- Model of JS `Number(s)` on the strings this program meets:
`Number("") = 0`, a nonempty digit string (optionally signed) converts
to its decimal value, and anything else is `NaN`, modelled as `none`.
(Exotic JS numeric literals — decimals, exponents, hex, inner
whitespace — are modelled as `NaN`; none of them can denote a
minutes-of-day value within a matching window, so no claim depends on
them.) -/
def jsNumber (cs : List Char) : Option Int :=
  match cs with
  | [] => some 0
  | '-' :: rest =>
    if rest = [] then none
    else if rest.all Char.isDigit then some (-(jsDigits rest : Int)) else none
  | '+' :: rest =>
    if rest = [] then none
    else if rest.all Char.isDigit then some (jsDigits rest : Int) else none
  | l => if l.all Char.isDigit then some (jsDigits l : Int) else none

/-- Embedding of the scheduler's per-time parse
(`const [medHour, medMinute] = time.split(':').map(Number)` followed by
`medHour * 60 + medMinute`): `none` is JS `NaN`.  When the split yields
fewer than two parts the second destructured component is `undefined`
and the sum is `NaN`; extra parts are ignored. -/
def minutesOfDay (time : String) : Option Int :=
  match splitOnChar ':' time.data with
  | h :: m :: _ =>
    match jsNumber h, jsNumber m with
    | some hv, some mv => some (hv * 60 + mv)
    | _, _ => none
  | _ => none

/-- Embedding of the scheduler's matching predicate
`Math.abs(medMinutes - currMinutes) <= 5`; any comparison against JS
`NaN` is false. -/
def timeMatches (currentTime time : String) : Bool :=
  match minutesOfDay time, minutesOfDay currentTime with
  | some a, some b => (a - b).natAbs ≤ 5
  | _, _ => false

/-- A string of the exact shape `HH:MM` with two digits on both sides
of a single colon (the shape the UI stores and the spec describes). -/
def isHHMM (s : String) : Bool :=
  match splitOnChar ':' s.data with
  | [h, m] => h.length == 2 && m.length == 2 && h.all Char.isDigit && m.all Char.isDigit
  | _ => false

/-- One row of the record-lookup function's result, as consumed by the
scheduler. -/
structure MedRow where
  medication_id : String
  medication_name : String
  dosage : String
  times : List String
  recipient_id : String
  recipient_name : String
  recipient_email : String
  recipient_timezone : String
deriving DecidableEq

/-- A `reminder_logs` row, restricted to the columns the core reads or
writes. -/
structure LogRow where
  medication_id : String
  recipient_id : String
  scheduled_time : String
  sent_time : Option String
  method : String
  status : String
deriving DecidableEq

/-- The JSON body the scheduler POSTs to the dispatcher
(`ReminderRequest` in send-reminder/index.ts). -/
structure DispatchReq where
  medicationId : String
  recipientEmail : String
  recipientName : String
  medicationName : String
  dosage : String
  scheduledTime : String
deriving DecidableEq

/-- The request the scheduler builds for a medication and key. -/
def mkReq (med : MedRow) (scheduledTime : String) : DispatchReq :=
  ⟨med.medication_id, med.recipient_email, med.recipient_name,
   med.medication_name, med.dosage, scheduledTime⟩

/-- The row the dispatcher inserts into `reminder_logs`: note
`recipient_id: ''` and `status: 'sent'`, verbatim from the source. -/
def mkLogRow (req : DispatchReq) (sentTime : String) : LogRow :=
  { medication_id := req.medicationId
    recipient_id := ""
    scheduled_time := req.scheduledTime
    sent_time := some sentTime
    method := "email"
    status := "sent" }

/-- Outcome of the dispatcher endpoint: HTTP status, the `success` flag
of the JSON body, the response text the scheduler reads on failure
(modelled as the thrown error's message), and the log table after the
call. -/
structure SendResult where
  status : Nat
  success : Bool
  bodyText : String
  logs : List LogRow
deriving DecidableEq

/-- Embedding of the send-reminder function.  The email transport is a
stub in the source (a log line only), so the function's sole effect is
the `reminder_logs` insert; `insertError` is the environment's verdict
on that insert (`none` = insert succeeds).  On insert failure the
thrown error reaches the catch block: status 500, `success: false`. -/
def sendReminder (req : DispatchReq) (sentTime : String)
    (insertError : Option String) (logs : List LogRow) : SendResult :=
  match insertError with
  | some e => { status := 500, success := false, bodyText := e, logs := logs }
  | none =>
    { status := 200, success := true, bodyText := "Reminder sent successfully"
      logs := logs ++ [mkLogRow req sentTime] }

/-- Environment's verdict on one dispatch: the `fetch` to the
dispatcher itself throws (network error), or the request is delivered
and the dispatcher runs with the given insert outcome. -/
inductive Transport where
  | throws (msg : String)
  | delivered (insertError : Option String)

/-- Mutable state of one scheduler run: the three accumulators of the
loop, the `reminder_logs` table, and the instrumentation trace of
dispatch requests issued. -/
structure SchedState where
  remindersProcessed : Nat
  remindersSent : Nat
  errors : List String
  logs : List LogRow
  dispatches : List DispatchReq
deriving DecidableEq

/-- State at the start of a run over a given log table. -/
def initState (logs : List LogRow) : SchedState :=
  { remindersProcessed := 0, remindersSent := 0, errors := [], logs := logs
    dispatches := [] }

/-- Number of `reminder_logs` rows with the given medication id and
scheduled time. -/
def countLogs (logs : List LogRow) (medId schedTime : String) : Nat :=
  (logs.filter (fun l => l.medication_id == medId && l.scheduled_time == schedTime)).length

/-- Embedding of one iteration of the scheduler's `for` loop.  The
existing-log query uses `.single()`, which yields a non-null `data`
exactly when the query returns exactly one row — hence the skip
condition `countLogs ... = 1`.  `reminderResponse.ok` is `status = 200`
(the dispatcher answers 200 or 500). -/
def processMed (currentDate currentTime sentTime : String)
    (transport : MedRow → Transport) (med : MedRow) (st : SchedState) : SchedState :=
  match med.times.filter (timeMatches currentTime) with
  | [] => st
  | t0 :: _ =>
    let scheduledTime := currentDate ++ "T" ++ t0 ++ ":00"
    if countLogs st.logs med.medication_id scheduledTime = 1 then
      { st with remindersProcessed := st.remindersProcessed + 1 }
    else
      match transport med with
      | .throws msg =>
        { st with remindersProcessed := st.remindersProcessed + 1
                  dispatches := st.dispatches ++ [mkReq med scheduledTime]
                  errors := st.errors ++
                    ["Error sending reminder for " ++ med.medication_name ++ ": " ++ msg] }
      | .delivered insertError =>
        let r := sendReminder (mkReq med scheduledTime) sentTime insertError st.logs
        if r.status = 200 then
          { st with remindersProcessed := st.remindersProcessed + 1
                    remindersSent := st.remindersSent + 1
                    dispatches := st.dispatches ++ [mkReq med scheduledTime]
                    logs := r.logs }
        else
          { st with remindersProcessed := st.remindersProcessed + 1
                    dispatches := st.dispatches ++ [mkReq med scheduledTime]
                    errors := st.errors ++
                      ["Failed to send reminder for " ++ med.medication_name ++ ": " ++ r.bodyText] }

/-- The scheduler's loop over the fetched medications. -/
def foldMeds (currentDate currentTime sentTime : String)
    (transport : MedRow → Transport) (meds : List MedRow) (st : SchedState) : SchedState :=
  meds.foldl (fun s m => processMed currentDate currentTime sentTime transport m s) st

/-- The scheduler endpoint's JSON response: `ok` carries the 200 body
(`success: true`, timestamp, counters, `errors` omitted when empty,
hence `Option`), `err` the 500 body (`success: false`, error). -/
inductive RunResponse where
  | ok (timestamp : String) (remindersProcessed remindersSent : Nat)
       (errors : Option (List String))
  | err (error : String)
deriving DecidableEq

/-- HTTP status of a scheduler response. -/
def respStatus : RunResponse → Nat
  | .ok _ _ _ _ => 200
  | .err _ => 500

/-- Top-level `success` flag of a scheduler response. -/
def respSuccess : RunResponse → Bool
  | .ok _ _ _ _ => true
  | .err _ => false

/-- Embedding of one invocation of the schedule-reminders function:
`fetch` is the result of the `get_active_medications_for_reminders`
RPC (`Except.error` = `medicationsError` non-null, which is thrown and
caught by the outer catch).  Returns the HTTP response together with
the final state (log table, trace). -/
def scheduleRun (currentDate currentTime sentTime timestamp : String)
    (transport : MedRow → Transport) (fetch : Except String (List MedRow))
    (logs0 : List LogRow) : RunResponse × SchedState :=
  match fetch with
  | .error e => (.err e, initState logs0)
  | .ok meds =>
    let st := foldMeds currentDate currentTime sentTime transport meds (initState logs0)
    (.ok timestamp st.remindersProcessed st.remindersSent
       (if st.errors = [] then none else some st.errors), st)

/-- A `medications` table row (schema of part_000). Dates are day
ordinals. -/
structure Medication where
  id : String
  recipient_id : String
  name : String
  dosage : String
  frequency : String
  times : List String
  start_date : Int
  end_date : Int
  is_active : Bool
deriving DecidableEq

/-- A `recipients` table row, restricted to the selected columns. -/
structure Recipient where
  id : String
  user_id : String
  name : String
  email : String
  timezone : String
deriving DecidableEq

/-- The row the SQL function SELECTs for a joined pair. -/
def mkFetchRow (m : Medication) (r : Recipient) : MedRow :=
  ⟨m.id, m.name, m.dosage, m.times, r.id, r.name, r.email, r.timezone⟩

/-- Embedding of the SQL function `get_active_medications_for_reminders`:
inner join of `medications` with `recipients` on `recipient_id`, kept
where `is_active = true AND CURRENT_DATE BETWEEN start_date AND
end_date` (SQL `BETWEEN` is inclusive at both ends). -/
def get_active_medications_for_reminders (today : Int)
    (medications : List Medication) (recipients : List Recipient) : List MedRow :=
  (medications.filter
      (fun m => m.is_active && decide (m.start_date ≤ today) && decide (today ≤ m.end_date))).flatMap
    (fun m => (recipients.filter (fun r => r.id == m.recipient_id)).map
      (fun r => mkFetchRow m r))

/-- Hexadecimal digit character. -/
def isHexChar (c : Char) : Bool :=
  c.isDigit || ('a' ≤ c && c ≤ 'f') || ('A' ≤ c && c ≤ 'F')

/-- Canonical textual uuid shape: five hyphen-separated hex groups of
lengths 8-4-4-4-12, as the `uuid` columns of the schema hold. -/
def isUuid (s : String) : Bool :=
  match splitOnChar '-' s.data with
  | [a, b, c, d, e] =>
    a.length == 8 && b.length == 4 && c.length == 4 && d.length == 4 &&
      e.length == 12 && (a ++ b ++ c ++ d ++ e).all isHexChar
  | _ => false

/-- All reached transports deliver and all log inserts succeed: the
environment of a fully healthy run. -/
def trOk : MedRow → Transport := fun _ => Transport.delivered none

/-- No two `reminder_logs` rows share a (medication id, scheduled time)
deduplication key. -/
def dedupOK (logs : List LogRow) : Prop :=
  ∀ mid t, countLogs logs mid t ≤ 1

/-- All reached transports throw before the dispatcher answers. -/
def trThrow : MedRow → Transport := fun _ => Transport.throws "network down"

/-- All dispatches reach the dispatcher but its log insert fails. -/
def trFail : MedRow → Transport := fun _ => Transport.delivered (some "db down")

/-- Sample fetched medication: two dose times two minutes apart. -/
def aspirinMed : MedRow :=
  ⟨"m1", "Aspirin", "100mg", ["08:00", "08:02"], "r1", "Bob", "bob@example.com", "UTC"⟩

/-- Sample fetched medication with a single distant dose time. -/
def noonMed : MedRow :=
  ⟨"m2", "Vitamin D", "1000IU", ["12:00"], "r1", "Bob", "bob@example.com", "UTC"⟩

/-- A log row carrying `aspirinMed`'s deduplication key for 2025-01-01
08:00. -/
def dupLog : LogRow := ⟨"m1", "r1", "2025-01-01T08:00:00", none, "email", "sent"⟩

/-- Sample recipient with a well-formed uuid id. -/
def sampleRecipient : Recipient :=
  ⟨"123e4567-e89b-12d3-a456-426614174000", "u1", "Bob", "bob@example.com", "UTC"⟩

/-- Sample medication table row, active from day 10 to day 20. -/
def sampleMedication : Medication :=
  ⟨"m1", "123e4567-e89b-12d3-a456-426614174000", "Aspirin", "100mg", "once_daily",
   ["08:00"], 10, 20, true⟩

lemma countLogs_append (l1 l2 : List LogRow) (mid t : String) :
    countLogs (l1 ++ l2) mid t = countLogs l1 mid t + countLogs l2 mid t := by
  simp [countLogs, List.filter_append]

lemma countLogs_singleton (l : LogRow) (mid t : String) :
    countLogs [l] mid t =
      if l.medication_id = mid ∧ l.scheduled_time = t then 1 else 0 := by
  by_cases h1 : l.medication_id = mid <;> by_cases h2 : l.scheduled_time = t <;>
    simp [countLogs, h1, h2]

lemma processMed_no_match {ct : String} {med : MedRow}
    (cd stime : String) (tr : MedRow → Transport) (st : SchedState)
    (hf : med.times.filter (timeMatches ct) = []) :
    processMed cd ct stime tr med st = st := by
  simp only [processMed, hf]

lemma processMed_skip {cd ct : String} {med : MedRow} {st : SchedState} {t0 : String}
    {ts : List String} (stime : String) (tr : MedRow → Transport)
    (hf : med.times.filter (timeMatches ct) = t0 :: ts)
    (hc : countLogs st.logs med.medication_id (cd ++ "T" ++ t0 ++ ":00") = 1) :
    processMed cd ct stime tr med st =
      { st with remindersProcessed := st.remindersProcessed + 1 } := by
  simp only [processMed, hf, hc, if_pos]

lemma processMed_throws {cd ct : String} {med : MedRow} {st : SchedState} {t0 : String}
    {ts : List String} {tr : MedRow → Transport} {msg : String} (stime : String)
    (hf : med.times.filter (timeMatches ct) = t0 :: ts)
    (hc : countLogs st.logs med.medication_id (cd ++ "T" ++ t0 ++ ":00") ≠ 1)
    (htr : tr med = Transport.throws msg) :
    processMed cd ct stime tr med st =
      { st with remindersProcessed := st.remindersProcessed + 1
                dispatches := st.dispatches ++ [mkReq med (cd ++ "T" ++ t0 ++ ":00")]
                errors := st.errors ++
                  ["Error sending reminder for " ++ med.medication_name ++ ": " ++ msg] } := by
  simp only [processMed, hf, hc, if_neg, htr, ite_false]

lemma processMed_ok {cd ct : String} {med : MedRow} {st : SchedState} {t0 : String}
    {ts : List String} {tr : MedRow → Transport} (stime : String)
    (hf : med.times.filter (timeMatches ct) = t0 :: ts)
    (hc : countLogs st.logs med.medication_id (cd ++ "T" ++ t0 ++ ":00") ≠ 1)
    (htr : tr med = Transport.delivered none) :
    processMed cd ct stime tr med st =
      { st with remindersProcessed := st.remindersProcessed + 1
                remindersSent := st.remindersSent + 1
                dispatches := st.dispatches ++ [mkReq med (cd ++ "T" ++ t0 ++ ":00")]
                logs := st.logs ++
                  [mkLogRow (mkReq med (cd ++ "T" ++ t0 ++ ":00")) stime] } := by
  simp only [processMed, hf, hc, if_neg, htr, sendReminder, ite_false]
  simp

lemma processMed_insertFail {cd ct : String} {med : MedRow} {st : SchedState} {t0 : String}
    {ts : List String} {tr : MedRow → Transport} {e : String} (stime : String)
    (hf : med.times.filter (timeMatches ct) = t0 :: ts)
    (hc : countLogs st.logs med.medication_id (cd ++ "T" ++ t0 ++ ":00") ≠ 1)
    (htr : tr med = Transport.delivered (some e)) :
    processMed cd ct stime tr med st =
      { st with remindersProcessed := st.remindersProcessed + 1
                dispatches := st.dispatches ++ [mkReq med (cd ++ "T" ++ t0 ++ ":00")]
                errors := st.errors ++
                  ["Failed to send reminder for " ++ med.medication_name ++ ": " ++ e] } := by
  simp only [processMed, hf, hc, if_neg, htr, sendReminder, ite_false]
  norm_num

lemma processMed_logs_extend (cd ct stime : String) (tr : MedRow → Transport)
    (med : MedRow) (st : SchedState) :
    ∃ ext, (processMed cd ct stime tr med st).logs = st.logs ++ ext := by
  cases hf : med.times.filter (timeMatches ct) with
  | nil => rw [processMed_no_match cd stime tr st hf]; exact ⟨[], by simp⟩
  | cons t0 ts =>
    by_cases hc : countLogs st.logs med.medication_id (cd ++ "T" ++ t0 ++ ":00") = 1
    · rw [processMed_skip stime tr hf hc]; exact ⟨[], by simp⟩
    · cases htr : tr med with
      | throws msg => rw [processMed_throws stime hf hc htr]; exact ⟨[], by simp⟩
      | delivered ie =>
        cases ie with
        | none =>
          rw [processMed_ok stime hf hc htr]
          exact ⟨[mkLogRow (mkReq med (cd ++ "T" ++ t0 ++ ":00")) stime], rfl⟩
        | some e => rw [processMed_insertFail stime hf hc htr]; exact ⟨[], by simp⟩

lemma countLogs_mono_processMed (cd ct stime : String) (tr : MedRow → Transport)
    (med : MedRow) (st : SchedState) (mid t : String) :
    countLogs st.logs mid t ≤ countLogs (processMed cd ct stime tr med st).logs mid t := by
  obtain ⟨ext, hext⟩ := processMed_logs_extend cd ct stime tr med st
  rw [hext, countLogs_append]
  exact Nat.le_add_right _ _

lemma processMed_dedup {cd ct stime : String} {tr : MedRow → Transport}
    {med : MedRow} {st : SchedState} (h : dedupOK st.logs)
    (htr : tr med = Transport.delivered none) :
    dedupOK (processMed cd ct stime tr med st).logs := by
  cases hf : med.times.filter (timeMatches ct) with
  | nil => rw [processMed_no_match cd stime tr st hf]; exact h
  | cons t0 ts =>
    by_cases hc : countLogs st.logs med.medication_id (cd ++ "T" ++ t0 ++ ":00") = 1
    · rw [processMed_skip stime tr hf hc]; exact h
    · rw [processMed_ok stime hf hc htr]
      intro mid t
      rw [countLogs_append, countLogs_singleton]
      have hst := h mid t
      by_cases hk : (mkLogRow (mkReq med (cd ++ "T" ++ t0 ++ ":00")) stime).medication_id = mid ∧
          (mkLogRow (mkReq med (cd ++ "T" ++ t0 ++ ":00")) stime).scheduled_time = t
      · rw [if_pos hk]
        obtain ⟨h1, h2⟩ := hk
        simp only [mkLogRow, mkReq] at h1 h2
        subst h1; subst h2
        omega
      · rw [if_neg hk]
        omega

lemma processMed_count_key {cd ct stime : String} {tr : MedRow → Transport}
    {med : MedRow} {st : SchedState} {t0 : String} {ts : List String}
    (h : dedupOK st.logs)
    (hf : med.times.filter (timeMatches ct) = t0 :: ts)
    (htr : tr med = Transport.delivered none) :
    countLogs (processMed cd ct stime tr med st).logs med.medication_id
      (cd ++ "T" ++ t0 ++ ":00") = 1 := by
  by_cases hc : countLogs st.logs med.medication_id (cd ++ "T" ++ t0 ++ ":00") = 1
  · rw [processMed_skip stime tr hf hc]; exact hc
  · rw [processMed_ok stime hf hc htr, countLogs_append, countLogs_singleton]
    have := h med.medication_id (cd ++ "T" ++ t0 ++ ":00")
    simp only [mkLogRow, mkReq, and_self, if_true]
    omega

lemma foldMeds_cons (cd ct stime : String) (tr : MedRow → Transport)
    (m : MedRow) (ms : List MedRow) (st : SchedState) :
    foldMeds cd ct stime tr (m :: ms) st =
      foldMeds cd ct stime tr ms (processMed cd ct stime tr m st) := rfl

lemma foldMeds_logs_extend (cd ct stime : String) (tr : MedRow → Transport) :
    ∀ (meds : List MedRow) (st : SchedState),
      ∃ ext, (foldMeds cd ct stime tr meds st).logs = st.logs ++ ext := by
  intro meds
  induction meds with
  | nil => intro st; exact ⟨[], by simp [foldMeds]⟩
  | cons m ms ih =>
    intro st
    rw [foldMeds_cons]
    obtain ⟨e1, h1⟩ := processMed_logs_extend cd ct stime tr m st
    obtain ⟨e2, h2⟩ := ih (processMed cd ct stime tr m st)
    exact ⟨e1 ++ e2, by rw [h2, h1, List.append_assoc]⟩

lemma countLogs_mono_foldMeds (cd ct stime : String) (tr : MedRow → Transport)
    (meds : List MedRow) (st : SchedState) (mid t : String) :
    countLogs st.logs mid t ≤ countLogs (foldMeds cd ct stime tr meds st).logs mid t := by
  obtain ⟨ext, hext⟩ := foldMeds_logs_extend cd ct stime tr meds st
  rw [hext, countLogs_append]
  exact Nat.le_add_right _ _

lemma foldMeds_dedup {cd ct stime : String} {tr : MedRow → Transport}
    (htr : ∀ m, tr m = Transport.delivered none) :
    ∀ {meds : List MedRow} {st : SchedState}, dedupOK st.logs →
      dedupOK (foldMeds cd ct stime tr meds st).logs := by
  intro meds
  induction meds with
  | nil => intro st h; exact h
  | cons m ms ih =>
    intro st h
    rw [foldMeds_cons]
    exact ih (processMed_dedup h (htr m))

lemma foldMeds_count_key {cd ct stime : String} {tr : MedRow → Transport}
    (htr : ∀ m, tr m = Transport.delivered none) :
    ∀ {meds : List MedRow} {st : SchedState}, dedupOK st.logs →
      ∀ med ∈ meds, ∀ t0 ts, med.times.filter (timeMatches ct) = t0 :: ts →
        countLogs (foldMeds cd ct stime tr meds st).logs med.medication_id
          (cd ++ "T" ++ t0 ++ ":00") = 1 := by
  intro meds
  induction meds with
  | nil => intro st _ med hmem; exact absurd hmem (List.not_mem_nil med)
  | cons m ms ih =>
    intro st h med hmem t0 ts hf
    rw [foldMeds_cons]
    rcases List.mem_cons.mp hmem with rfl | hmem'
    · have h1 := @processMed_count_key cd ct stime tr med st t0 ts h hf (htr med)
      have hd := @processMed_dedup cd ct stime tr med st h (htr med)
      have hmono := countLogs_mono_foldMeds cd ct stime tr ms
        (processMed cd ct stime tr med st) med.medication_id (cd ++ "T" ++ t0 ++ ":00")
      have hub := @foldMeds_dedup cd ct stime tr htr ms
        (processMed cd ct stime tr med st) hd med.medication_id (cd ++ "T" ++ t0 ++ ":00")
      omega
    · exact ih (processMed_dedup h (htr m)) med hmem' t0 ts hf

lemma foldMeds_noop {cd ct stime : String} {tr : MedRow → Transport} :
    ∀ {meds : List MedRow} {st : SchedState},
      (∀ med ∈ meds, ∀ t0 ts, med.times.filter (timeMatches ct) = t0 :: ts →
        countLogs st.logs med.medication_id (cd ++ "T" ++ t0 ++ ":00") = 1) →
      (foldMeds cd ct stime tr meds st).logs = st.logs ∧
        (foldMeds cd ct stime tr meds st).dispatches = st.dispatches := by
  intro meds
  induction meds with
  | nil => intro st _; exact ⟨rfl, rfl⟩
  | cons m ms ih =>
    intro st h
    rw [foldMeds_cons]
    cases hf : m.times.filter (timeMatches ct) with
    | nil =>
      rw [processMed_no_match cd stime tr st hf]
      exact ih (fun med hm => h med (List.mem_cons_of_mem m hm))
    | cons t0 ts =>
      have hc := h m (List.mem_cons_self m ms) t0 ts hf
      rw [processMed_skip stime tr hf hc]
      exact ih (fun med hm => h med (List.mem_cons_of_mem m hm))

lemma find?_of_filter_eq_cons {α : Type} {p : α → Bool} :
    ∀ {l : List α} {x : α} {xs : List α}, l.filter p = x :: xs → l.find? p = some x := by
  intro l
  induction l with
  | nil => intro x xs h; simp at h
  | cons a t ih =>
    intro x xs h
    by_cases hp : p a
    · rw [List.filter_cons_of_pos hp] at h
      rw [List.find?_cons_of_pos _ hp]
      exact congrArg some (List.cons.inj h).1
    · rw [List.filter_cons_of_neg hp] at h
      rw [List.find?_cons_of_neg _ hp]
      exact ih h

lemma any_iff_filter_ne_nil {α : Type} (p : α → Bool) (l : List α) :
    l.any p = true ↔ l.filter p ≠ [] := by
  induction l with
  | nil => simp
  | cons a t ih => by_cases hp : p a <;> simp [hp, List.filter_cons, ih]

/-- C1 (amended): when at least one time entry of a fetched medication
lies within the 5-minute window of the current time, the scheduler
builds the deduplication/scheduled-time key from the first matching
entry in list order, and attempts at most one dispatch for that
medication: exactly one when no (medication, key) log row blocks it,
none when the dedup check fires. -/
theorem claim_C1 (cd ct stime : String) (tr : MedRow → Transport) (med : MedRow)
    (st : SchedState) (h : med.times.any (timeMatches ct) = true) :
    ∃ f, med.times.find? (timeMatches ct) = some f ∧
      (countLogs st.logs med.medication_id (cd ++ "T" ++ f ++ ":00") = 1 →
        (processMed cd ct stime tr med st).dispatches = st.dispatches) ∧
      (countLogs st.logs med.medication_id (cd ++ "T" ++ f ++ ":00") ≠ 1 →
        (processMed cd ct stime tr med st).dispatches =
          st.dispatches ++ [mkReq med (cd ++ "T" ++ f ++ ":00")]) := by
  have hne : med.times.filter (timeMatches ct) ≠ [] := (any_iff_filter_ne_nil _ _).mp h
  cases hf : med.times.filter (timeMatches ct) with
  | nil => exact absurd hf hne
  | cons t0 ts =>
    refine ⟨t0, find?_of_filter_eq_cons hf, ?_, ?_⟩
    · intro hc; rw [processMed_skip stime tr hf hc]
    · intro hc
      cases htr : tr med with
      | throws msg => rw [processMed_throws stime hf hc htr]
      | delivered ie =>
        cases ie with
        | none => rw [processMed_ok stime hf hc htr]
        | some e => rw [processMed_insertFail stime hf hc htr]

/-- C1 witness: `times = ["08:00","08:02"]` at current time `08:01`
with an empty log table dispatches exactly once, keyed on the first
match `08:00`.  -/
theorem claim_C1_witness :
    (processMed "2025-01-01" "08:01" "s" trOk aspirinMed (initState [])).dispatches =
      [mkReq aspirinMed ("2025-01-01" ++ "T" ++ "08:00" ++ ":00")] := by
  obtain ⟨f, hf, _, hdisp⟩ :=
    claim_C1 "2025-01-01" "08:01" "s" trOk aspirinMed (initState []) (by decide)
  have hfv : f = "08:00" := by
    have hfind : aspirinMed.times.find? (timeMatches "08:01") = some "08:00" := by decide
    rw [hfind] at hf
    exact (Option.some.inj hf).symm
  subst hfv
  exact hdisp (by decide)

/-- C1 counterexample to the claim as frozen: with a pre-existing log
row for `aspirinMed`'s key, one entry is within 5 minutes of the
current time and yet zero (not exactly one) dispatches are attempted
in the invocation. -/
theorem claim_C1_counterexample :
    aspirinMed.times.any (timeMatches "08:01") = true ∧
    (processMed "2025-01-01" "08:01" "s" trOk aspirinMed
        (initState [dupLog])).dispatches = [] := by decide

/-- C2: for parsed time entries the matching predicate holds exactly
when the minutes-of-day values differ by at most 5 in absolute value
(so exactly 5 matches, 6 does not), and a medication none of whose
entries matches the current time is left entirely untouched by the
scheduler loop: no dispatch, no log write, no counter change. -/
theorem claim_C2 :
    (∀ (t curr : String) (a b : Int), minutesOfDay t = some a → minutesOfDay curr = some b →
      (timeMatches curr t = true ↔ (a - b).natAbs ≤ 5)) ∧
    (∀ (cd ct stime : String) (tr : MedRow → Transport) (med : MedRow) (st : SchedState),
      med.times.any (timeMatches ct) = false →
      processMed cd ct stime tr med st = st) := by
  constructor
  · intro t curr a b ht hcurr
    simp [timeMatches, ht, hcurr]
  · intro cd ct stime tr med st h
    have hf : med.times.filter (timeMatches ct) = [] := by
      by_contra hne
      have hany := (any_iff_filter_ne_nil (timeMatches ct) med.times).mpr hne
      rw [h] at hany
      exact Bool.false_ne_true hany
    exact processMed_no_match cd stime tr st hf

/-- C2 witness: `08:05` is within the window of `08:00`, `08:06` is
not, and a medication whose only time is `12:00` is untouched at
current time `08:00`. -/
theorem claim_C2_witness :
    timeMatches "08:00" "08:05" = true ∧ timeMatches "08:00" "08:06" = false ∧
    processMed "2025-01-01" "08:00" "s" trOk noonMed (initState []) = initState [] := by
  refine ⟨?_, ?_, ?_⟩
  · exact (claim_C2.1 "08:05" "08:00" 485 480 (by decide) (by decide)).mpr (by decide)
  · have h := claim_C2.1 "08:06" "08:00" 486 480 (by decide) (by decide)
    by_cases hb : timeMatches "08:00" "08:06" = true
    · exact absurd (h.mp hb) (by decide)
    · simpa using hb
  · exact claim_C2.2 "2025-01-01" "08:00" "s" trOk noonMed (initState []) (by decide)

/-- C3 (amended): the scheduler skips a matching medication — no
dispatch, no log write, only the processed counter moves — exactly
when exactly one ReminderLog row carries its (medication_id,
scheduled_time) key (the `.single()` query yields a row only in that
case); and starting from a log table with no duplicate keys, two
scheduler runs in immediate succession at the same simulated now (all
transports healthy) leave the log table of the first run unchanged and
dispatch nothing in the second run. -/
theorem claim_C3 :
    (∀ (cd ct stime : String) (tr : MedRow → Transport) (med : MedRow) (st : SchedState)
        (t0 : String) (ts : List String),
      med.times.filter (timeMatches ct) = t0 :: ts →
      countLogs st.logs med.medication_id (cd ++ "T" ++ t0 ++ ":00") = 1 →
      processMed cd ct stime tr med st =
        { st with remindersProcessed := st.remindersProcessed + 1 }) ∧
    (∀ (cd ct stime ts0 : String) (meds : List MedRow) (logs0 : List LogRow),
      dedupOK logs0 →
      (scheduleRun cd ct stime ts0 trOk (Except.ok meds)
          ((scheduleRun cd ct stime ts0 trOk (Except.ok meds) logs0).2.logs)).2.logs =
        (scheduleRun cd ct stime ts0 trOk (Except.ok meds) logs0).2.logs ∧
      (scheduleRun cd ct stime ts0 trOk (Except.ok meds)
          ((scheduleRun cd ct stime ts0 trOk (Except.ok meds) logs0).2.logs)).2.dispatches =
        []) := by
  constructor
  · intro cd ct stime tr med st t0 ts hf hc
    exact processMed_skip stime tr hf hc
  · intro cd ct stime ts0 meds logs0 h
    have htr : ∀ m, trOk m = Transport.delivered none := fun m => rfl
    have hded0 : dedupOK (initState logs0).logs := h
    have hcounts := @foldMeds_count_key cd ct stime trOk htr meds (initState logs0) hded0
    have hnoop := @foldMeds_noop cd ct stime trOk meds
      (initState (foldMeds cd ct stime trOk meds (initState logs0)).logs)
      (fun med hm t0 ts hf => hcounts med hm t0 ts hf)
    exact ⟨hnoop.1, hnoop.2⟩

/-- C3 witness: one qualifying medication, empty initial log table —
the second immediate run dispatches nothing. -/
theorem claim_C3_witness :
    (scheduleRun "2025-01-01" "08:01" "s" "T1" trOk (Except.ok [aspirinMed])
        ((scheduleRun "2025-01-01" "08:01" "s" "T1" trOk (Except.ok [aspirinMed])
          []).2.logs)).2.dispatches = [] := by
  exact (claim_C3.2 "2025-01-01" "08:01" "s" "T1" [aspirinMed] []
    (by intro mid t; simp [countLogs])).2

/-- C3 counterexample to the claim as frozen: with two log rows
already carrying the key, a row "already exists" and yet the scheduler
does not skip — the `.single()` query errors on multiple rows, its
data is null, a dispatch is attempted and a third row is written. -/
theorem claim_C3_counterexample :
    countLogs [dupLog, dupLog] aspirinMed.medication_id "2025-01-01T08:00:00" = 2 ∧
    (processMed "2025-01-01" "08:01" "s" trOk aspirinMed
        (initState [dupLog, dupLog])).dispatches ≠ [] ∧
    (processMed "2025-01-01" "08:01" "s" trOk aspirinMed
        (initState [dupLog, dupLog])).logs =
      [dupLog, dupLog, mkLogRow (mkReq aspirinMed "2025-01-01T08:00:00") "s"] := by decide

/-- C4: a medication-fetch failure aborts the run before any
processing: the response is the 500 `success:false` body carrying the
error, no dispatch is attempted, the log table is untouched and no
counters or error list are produced. -/
theorem claim_C4 (cd ct stime ts0 : String) (tr : MedRow → Transport) (e : String)
    (logs0 : List LogRow) :
    scheduleRun cd ct stime ts0 tr (Except.error e) logs0 =
      (RunResponse.err e, initState logs0) ∧
    respStatus (RunResponse.err e) = 500 ∧
    respSuccess (RunResponse.err e) = false ∧
    (initState logs0).dispatches = [] ∧
    (initState logs0).logs = logs0 ∧
    (initState logs0).remindersProcessed = 0 ∧
    (initState logs0).remindersSent = 0 ∧
    (initState logs0).errors = [] :=
  ⟨rfl, rfl, rfl, rfl, rfl, rfl, rfl, rfl⟩

/-- C5: a per-medication dispatch failure — the transport call throwing
or the dispatcher answering non-OK — appends exactly one error string
naming the medication, leaves remindersSent untouched, does not abort
the loop, and the run still answers 200 with top-level success true. -/
theorem claim_C5 :
    (∀ (cd ct stime : String) (tr : MedRow → Transport) (med : MedRow) (st : SchedState)
        (t0 : String) (ts : List String) (msg : String),
      med.times.filter (timeMatches ct) = t0 :: ts →
      countLogs st.logs med.medication_id (cd ++ "T" ++ t0 ++ ":00") ≠ 1 →
      tr med = Transport.throws msg →
      processMed cd ct stime tr med st =
        { st with remindersProcessed := st.remindersProcessed + 1
                  dispatches := st.dispatches ++ [mkReq med (cd ++ "T" ++ t0 ++ ":00")]
                  errors := st.errors ++
                    ["Error sending reminder for " ++ med.medication_name ++ ": " ++ msg] }) ∧
    (∀ (cd ct stime : String) (tr : MedRow → Transport) (med : MedRow) (st : SchedState)
        (t0 : String) (ts : List String) (e : String),
      med.times.filter (timeMatches ct) = t0 :: ts →
      countLogs st.logs med.medication_id (cd ++ "T" ++ t0 ++ ":00") ≠ 1 →
      tr med = Transport.delivered (some e) →
      processMed cd ct stime tr med st =
        { st with remindersProcessed := st.remindersProcessed + 1
                  dispatches := st.dispatches ++ [mkReq med (cd ++ "T" ++ t0 ++ ":00")]
                  errors := st.errors ++
                    ["Failed to send reminder for " ++ med.medication_name ++ ": " ++ e] }) ∧
    (∀ (cd ct stime ts0 : String) (tr : MedRow → Transport) (meds : List MedRow)
        (logs0 : List LogRow),
      respStatus (scheduleRun cd ct stime ts0 tr (Except.ok meds) logs0).1 = 200 ∧
      respSuccess (scheduleRun cd ct stime ts0 tr (Except.ok meds) logs0).1 = true) := by
  refine ⟨?_, ?_, ?_⟩
  · intro cd ct stime tr med st t0 ts msg hf hc htr
    exact processMed_throws stime hf hc htr
  · intro cd ct stime tr med st t0 ts e hf hc htr
    exact processMed_insertFail stime hf hc htr
  · intro cd ct stime ts0 tr meds logs0
    exact ⟨rfl, rfl⟩

/-- C5 witness: a throwing transport at `08:01` for `aspirinMed` with
an empty log table yields one error entry naming Aspirin and no sent
increment. -/
theorem claim_C5_witness :
    processMed "2025-01-01" "08:01" "s" trThrow aspirinMed (initState []) =
      { initState [] with
          remindersProcessed := 1
          dispatches := [mkReq aspirinMed ("2025-01-01" ++ "T" ++ "08:00" ++ ":00")]
          errors := ["Error sending reminder for " ++ aspirinMed.medication_name ++
            ": " ++ "network down"] } := by
  have h := claim_C5.1 "2025-01-01" "08:01" "s" trThrow aspirinMed (initState [])
    "08:00" ["08:02"] "network down" (by decide) (by decide) rfl
  exact h

/-- C6: after the stub transport step the dispatcher inserts exactly
one ReminderLog row and its status is the constant `sent` (no delivery
outcome is consulted — the embedding has no delivery-success input at
all); when the insert fails the dispatcher answers 500 `success:false`
and the scheduler turns that into a per-item error entry with no sent
increment. -/
theorem claim_C6 :
    (∀ (req : DispatchReq) (stime : String) (logs : List LogRow),
      sendReminder req stime none logs =
        { status := 200, success := true, bodyText := "Reminder sent successfully"
          logs := logs ++ [mkLogRow req stime] } ∧
      (mkLogRow req stime).status = "sent") ∧
    (∀ (req : DispatchReq) (stime e : String) (logs : List LogRow),
      sendReminder req stime (some e) logs =
        { status := 500, success := false, bodyText := e, logs := logs }) ∧
    (∀ (cd ct stime : String) (tr : MedRow → Transport) (med : MedRow) (st : SchedState)
        (t0 : String) (ts : List String) (e : String),
      med.times.filter (timeMatches ct) = t0 :: ts →
      countLogs st.logs med.medication_id (cd ++ "T" ++ t0 ++ ":00") ≠ 1 →
      tr med = Transport.delivered (some e) →
      (processMed cd ct stime tr med st).errors =
        st.errors ++ ["Failed to send reminder for " ++ med.medication_name ++ ": " ++ e] ∧
      (processMed cd ct stime tr med st).remindersSent = st.remindersSent ∧
      (processMed cd ct stime tr med st).logs = st.logs) := by
  refine ⟨?_, ?_, ?_⟩
  · intro req stime logs
    exact ⟨rfl, rfl⟩
  · intro req stime e logs
    exact rfl
  · intro cd ct stime tr med st t0 ts e hf hc htr
    rw [processMed_insertFail stime hf hc htr]
    exact ⟨rfl, rfl, rfl⟩

/-- C6 witness: a failing log insert at `08:01` surfaces as one
scheduler error entry for Aspirin, with no log row written. -/
theorem claim_C6_witness :
    sendReminder (mkReq aspirinMed "2025-01-01T08:00:00") "s" none [] =
      { status := 200, success := true, bodyText := "Reminder sent successfully"
        logs := [mkLogRow (mkReq aspirinMed "2025-01-01T08:00:00") "s"] } ∧
    (processMed "2025-01-01" "08:01" "s" trFail aspirinMed (initState [])).errors =
      ["Failed to send reminder for " ++ aspirinMed.medication_name ++ ": " ++ "db down"] := by
  constructor
  · exact (claim_C6.1 (mkReq aspirinMed "2025-01-01T08:00:00") "s" []).1
  · exact (claim_C6.2.2 "2025-01-01" "08:01" "s" trFail aspirinMed (initState [])
      "08:00" ["08:02"] "db down" (by decide) (by decide) rfl).1

lemma processMed_processed (cd ct stime : String) (tr : MedRow → Transport)
    (med : MedRow) (st : SchedState) :
    (processMed cd ct stime tr med st).remindersProcessed =
      st.remindersProcessed + (if med.times.any (timeMatches ct) = true then 1 else 0) := by
  cases hf : med.times.filter (timeMatches ct) with
  | nil =>
    rw [processMed_no_match cd stime tr st hf]
    have hany : ¬med.times.any (timeMatches ct) = true := by
      intro h; exact (any_iff_filter_ne_nil _ _).mp h hf
    simp [hany]
  | cons t0 ts =>
    have hany : med.times.any (timeMatches ct) = true :=
      (any_iff_filter_ne_nil _ _).mpr (by simp [hf])
    rw [if_pos hany]
    by_cases hc : countLogs st.logs med.medication_id (cd ++ "T" ++ t0 ++ ":00") = 1
    · rw [processMed_skip stime tr hf hc]
    · cases htr : tr med with
      | throws msg => rw [processMed_throws stime hf hc htr]
      | delivered ie =>
        cases ie with
        | none => rw [processMed_ok stime hf hc htr]
        | some e => rw [processMed_insertFail stime hf hc htr]

lemma processMed_sent_logs (cd ct stime : String) (tr : MedRow → Transport)
    (med : MedRow) (st : SchedState) :
    (processMed cd ct stime tr med st).remindersSent + st.logs.length =
      st.remindersSent + (processMed cd ct stime tr med st).logs.length := by
  cases hf : med.times.filter (timeMatches ct) with
  | nil => rw [processMed_no_match cd stime tr st hf]
  | cons t0 ts =>
    by_cases hc : countLogs st.logs med.medication_id (cd ++ "T" ++ t0 ++ ":00") = 1
    · rw [processMed_skip stime tr hf hc]
    · cases htr : tr med with
      | throws msg => rw [processMed_throws stime hf hc htr]
      | delivered ie =>
        cases ie with
        | none => rw [processMed_ok stime hf hc htr]; simp; omega
        | some e => rw [processMed_insertFail stime hf hc htr]

lemma foldMeds_processed (cd ct stime : String) (tr : MedRow → Transport) :
    ∀ (meds : List MedRow) (st : SchedState),
      (foldMeds cd ct stime tr meds st).remindersProcessed =
        st.remindersProcessed +
          (meds.filter (fun m => m.times.any (timeMatches ct))).length := by
  intro meds
  induction meds with
  | nil => intro st; simp [foldMeds]
  | cons m ms ih =>
    intro st
    rw [foldMeds_cons, ih, processMed_processed]
    by_cases hm : m.times.any (timeMatches ct) = true <;>
      simp [hm, List.filter_cons, Nat.add_assoc, Nat.add_comm]

lemma foldMeds_sent_logs (cd ct stime : String) (tr : MedRow → Transport) :
    ∀ (meds : List MedRow) (st : SchedState),
      (foldMeds cd ct stime tr meds st).remindersSent + st.logs.length =
        st.remindersSent + (foldMeds cd ct stime tr meds st).logs.length := by
  intro meds
  induction meds with
  | nil => intro st; rfl
  | cons m ms ih =>
    intro st
    rw [foldMeds_cons]
    have h1 := processMed_sent_logs cd ct stime tr m st
    have h2 := ih (processMed cd ct stime tr m st)
    omega

/-- C7 (amended): a successful run answers the summary record with
the run timestamp, `remindersSent` equal to the count of successful
dispatches (one log row is written per successful dispatch, so it
equals the growth of the log table), an `errors` field omitted exactly
when the error list is empty — but `remindersProcessed` counts only
the fetched medications with at least one time entry inside the
5-minute window, not all medications evaluated. -/
theorem claim_C7 (cd ct stime ts0 : String) (tr : MedRow → Transport)
    (meds : List MedRow) (logs0 : List LogRow) :
    (scheduleRun cd ct stime ts0 tr (Except.ok meds) logs0).1 =
      RunResponse.ok ts0
        (scheduleRun cd ct stime ts0 tr (Except.ok meds) logs0).2.remindersProcessed
        (scheduleRun cd ct stime ts0 tr (Except.ok meds) logs0).2.remindersSent
        (if (scheduleRun cd ct stime ts0 tr (Except.ok meds) logs0).2.errors = [] then none
         else some (scheduleRun cd ct stime ts0 tr (Except.ok meds) logs0).2.errors) ∧
    (scheduleRun cd ct stime ts0 tr (Except.ok meds) logs0).2.remindersProcessed =
      (meds.filter (fun m => m.times.any (timeMatches ct))).length ∧
    (scheduleRun cd ct stime ts0 tr (Except.ok meds) logs0).2.remindersSent +
        logs0.length =
      (scheduleRun cd ct stime ts0 tr (Except.ok meds) logs0).2.logs.length := by
  refine ⟨rfl, ?_, ?_⟩
  · have h := foldMeds_processed cd ct stime tr meds (initState logs0)
    simpa [scheduleRun, initState] using h
  · have h := foldMeds_sent_logs cd ct stime tr meds (initState logs0)
    simpa [scheduleRun, initState] using h

/-- C7 counterexample to the claim as frozen: one medication is
fetched and evaluated, but its only time is outside the window, so
`remindersProcessed` is 0, not the count of medications evaluated. -/
theorem claim_C7_counterexample :
    (scheduleRun "2025-01-01" "08:01" "s" "T1" trOk (Except.ok [noonMed])
        []).2.remindersProcessed = 0 ∧
    [noonMed].length = 1 := by decide

/-- C8: the record-lookup function returns exactly the joined rows of
active medications whose inclusive `[start_date, end_date]` range
contains the current date; concretely, a medication is still eligible
on its `end_date` and no longer eligible the day after. -/
theorem claim_C8 :
    (∀ (today : Int) (medications : List Medication) (recipients : List Recipient)
        (row : MedRow),
      row ∈ get_active_medications_for_reminders today medications recipients ↔
        ∃ m ∈ medications, ∃ r ∈ recipients,
          m.is_active = true ∧ m.start_date ≤ today ∧ today ≤ m.end_date ∧
          r.id = m.recipient_id ∧ row = mkFetchRow m r) ∧
    mkFetchRow sampleMedication sampleRecipient ∈
      get_active_medications_for_reminders sampleMedication.end_date
        [sampleMedication] [sampleRecipient] ∧
    get_active_medications_for_reminders (sampleMedication.end_date + 1)
      [sampleMedication] [sampleRecipient] = [] := by
  refine ⟨?_, by decide, by decide⟩
  intro today medications recipients row
  simp only [get_active_medications_for_reminders, List.mem_flatMap, List.mem_filter,
    List.mem_map, Bool.and_eq_true, decide_eq_true_eq, beq_iff_eq]
  constructor
  · rintro ⟨m, ⟨hm, ⟨ha, h1⟩, h2⟩, r, ⟨hr, hid⟩, hrow⟩
    exact ⟨m, hm, r, hr, ha, h1, h2, hid, hrow.symm⟩
  · rintro ⟨m, hm, r, hr, ha, h1, h2, hid, hrow⟩
    exact ⟨m, ⟨hm, ⟨ha, h1⟩, h2⟩, r, ⟨hr, hid⟩, hrow.symm⟩

/-- C9: every log row the dispatcher builds carries the empty string
as `recipient_id` — not the recipient's id, which the request does not
even carry — so no dispatcher-written row can reference any recipient
whose id is a well-formed uuid (as the schema's non-null uuid foreign
key demands). -/
theorem claim_C9 (req : DispatchReq) (stime : String) (insertError : Option String)
    (r : Recipient) (h : isUuid r.id = true) :
    (mkLogRow req stime).recipient_id = "" ∧
    (mkLogRow req stime).recipient_id ≠ r.id ∧
    (∀ (logs : List LogRow) (l : LogRow),
      l ∈ (sendReminder req stime insertError logs).logs → l ∉ logs →
      l.recipient_id = "") := by
  refine ⟨rfl, ?_, ?_⟩
  · intro heq
    have h0 : r.id = "" := by rw [← heq]; rfl
    rw [h0] at h
    exact absurd h (by decide)
  · intro logs l hl hnl
    cases insertError with
    | some e => exact absurd hl hnl
    | none =>
      rcases List.mem_append.mp hl with hmem | hmem
      · exact absurd hmem hnl
      · rw [List.mem_singleton.mp hmem]
        rfl

/-- C9 witness: the dispatcher's row for a sample request cannot be
associated with the sample recipient's uuid. -/
theorem claim_C9_witness :
    (mkLogRow (mkReq aspirinMed "2025-01-01T08:00:00") "s").recipient_id ≠
      sampleRecipient.id :=
  (claim_C9 (mkReq aspirinMed "2025-01-01T08:00:00") "s" none sampleRecipient
    (by decide)).2.1

/-- C10 (amended): the matching predicate is total over arbitrary
strings and evaluates to false — never an error — whenever either
side's parse yields NaN; a match always exhibits parsed minutes-of-day
values within 5 of each other.  However, not every entry outside the
two-digit `HH:MM` shape yields NaN: entries whose first two
colon-separated components still convert numerically (extra
components, empty or short components) can match. -/
theorem claim_C10 :
    (∀ curr t : String, minutesOfDay t = none → timeMatches curr t = false) ∧
    (∀ curr t : String, minutesOfDay curr = none → timeMatches curr t = false) ∧
    (∀ curr t : String, timeMatches curr t = true →
      ∃ a b : Int, minutesOfDay t = some a ∧ minutesOfDay curr = some b ∧
        (a - b).natAbs ≤ 5) := by
  refine ⟨?_, ?_, ?_⟩
  · intro curr t h
    simp [timeMatches, h]
  · intro curr t h
    unfold timeMatches
    rw [h]
    cases minutesOfDay t <;> rfl
  · intro curr t h
    unfold timeMatches at h
    cases ht : minutesOfDay t <;> cases hc : minutesOfDay curr <;> rw [ht, hc] at h
    case none.none => exact absurd h (by simp)
    case none.some => exact absurd h (by simp)
    case some.none => exact absurd h (by simp)
    case some.some a b => exact ⟨a, b, rfl, rfl, of_decide_eq_true h⟩

/-- C10 witness: a non-numeric entry never matches. -/
theorem claim_C10_witness : timeMatches "08:00" "abc" = false :=
  claim_C10.1 "08:00" "abc" (by decide)

/-- C10 counterexample to the claim as frozen: `"08:00:00"` is not of
the form `HH:MM`, yet its first two components convert numerically,
so it matches current time `08:03` instead of being rejected. -/
theorem claim_C10_counterexample :
    isHHMM "08:00:00" = false ∧ timeMatches "08:03" "08:00:00" = true := by decide

example : timeMatches "08:00" "08:05" = true := by decide
example : timeMatches "08:00" "08:06" = false := by decide
example : minutesOfDay "abc" = none := by decide
example : minutesOfDay ":05" = some 5 := by decide
example : timeMatches "08:03" "08:00:00" = true := by decide
example : isHHMM "08:00:00" = false := by decide
example : isUuid "123e4567-e89b-12d3-a456-426614174000" = true := by decide

end MedReminder
